import Mathlib

/-!
Verification of the pyrightmcp access-control and orchestration core.

Shallow embedding of `src/pyrightmcp/main.py`, `pyright_service.py` and
`model.py`. Paths are modelled as absolute/relative flags plus POSIX
segments; the filesystem and each external subprocess invocation are
modelled as explicit oracles supplied in an `Env`. Every pipeline
function additionally reports the list of steps it actually invoked
(its trace) and the resulting filesystem, so short-circuiting and
file-creation claims can be stated observationally.
-/

namespace PyrightMcp

/-- A POSIX path as pathlib sees it: an absolute flag plus the path
segments (for `/home/foo`, `segs = ["home", "foo"]`). -/
structure PyPath where
  absolute : Bool
  segs : List String
deriving DecidableEq, Repr

/-- Rendering `str(path)` for an already-parsed path. -/
def PyPath.toStr (p : PyPath) : String :=
  (if p.absolute then "/" else "") ++ String.intercalate ("/") p.segs

/-- Appending one relative segment, as in `project_path / ".venv"`. -/
def PyPath.child (p : PyPath) (s : String) : PyPath :=
  ⟨p.absolute, p.segs ++ [s]⟩

/-- The pathlib `/` operator: if the right operand is absolute, the
left operand is ignored; otherwise the segments are concatenated. -/
def pyJoin (a b : PyPath) : PyPath :=
  if b.absolute then b else ⟨a.absolute, a.segs ++ b.segs⟩

/-- Normalisation of a segment list: drop `"."` segments and let `".."`
remove the previous segment (at the root, `".."` stays at the root, as
`resolve()` does). -/
def normSegs (acc : List String) : List String → List String
  | [] => acc
  | s :: rest =>
    if s = "." then normSegs acc rest
    else if s = ".." then normSegs acc.dropLast rest
    else normSegs (acc ++ [s]) rest

/-- Resolution as in `Path.resolve()` in a symlink-free filesystem:
make the path absolute against the current working directory and
normalise `"."` and `".."`. -/
def PyPath.resolve (p : PyPath) (cwd : List String) : PyPath :=
  ⟨true, normSegs [] (if p.absolute then p.segs else cwd ++ p.segs)⟩

/-- Containment as in `p.is_relative_to(a)`: the parts of `a` (anchor
included) are a prefix of the parts of `p`. In particular it holds
when `p = a`. -/
def PyPath.isRelativeTo (p a : PyPath) : Bool :=
  a.absolute == p.absolute && a.segs.isPrefixOf p.segs

/-- What a filesystem name refers to. Directories carry an emptiness
flag (the code never reads it, but the spec talks about empty
directories); the only file whose content matters is the JSON
configuration file, modelled as its key-value pairs. -/
inductive FSEntry
  | dir (empty : Bool)
  | file (kv : List (String × String))
deriving DecidableEq, Repr

/-- A finite filesystem: an association list from absolute-path segment
lists to entries. -/
structure FileSystem where
  entries : List (List String × FSEntry)
deriving DecidableEq, Repr

def FileSystem.lookup (fs : FileSystem) (p : List String) : Option FSEntry :=
  (fs.entries.find? (fun e => e.1 = p)).map (·.2)

/-- Existence as in `Path.exists()`. -/
def FileSystem.pathExists (fs : FileSystem) (p : List String) : Bool :=
  (fs.lookup p).isSome

/-- Directory test as in `Path.is_dir()`. -/
def FileSystem.isDir (fs : FileSystem) (p : List String) : Bool :=
  match fs.lookup p with
  | some (.dir _) => true
  | _ => false

/-- Writing a file: the new entry shadows any previous one. -/
def FileSystem.setFile (fs : FileSystem) (p : List String) (kv : List (String × String)) :
    FileSystem :=
  ⟨(p, .file kv) :: fs.entries⟩

/-- Outcome of one `subprocess.run` invocation: normal completion with
exit code and captured streams, `TimeoutExpired`, `FileNotFoundError`
(carrying its rendered message), or another exception. -/
inductive ProcResult
  | completed (returncode : Int) (stdout stderr : String)
  | timedOut
  | fileNotFound (msg : String)
  | exn (msg : String)
deriving DecidableEq, Repr

/-- The ambient world for one pipeline run: the filesystem plus the
outcome of each of the four external commands the pipeline can spawn,
and whether writing the configuration file would succeed. -/
structure Env where
  fs : FileSystem
  uvVersion : ProcResult
  pyrightVersion : ProcResult
  uvAddPyright : ProcResult
  runPyrightProc : ProcResult
  configWriteOk : Bool
  configWriteErr : String
deriving DecidableEq, Repr

/-- Embedding of `model.PyrightError`. -/
structure PyrightError where
  message : String
deriving DecidableEq, Repr

/-- Embedding of `model.PyrightResult`. -/
structure PyrightResult where
  output : String
  exit_code : Int
  directory : PyPath
deriving DecidableEq, Repr

/-- Embedding of `model.VenvStatus` (`exists` is a Lean keyword, hence
the field name `exists_`). -/
structure VenvStatus where
  exists_ : Bool
  path : PyPath
  activated : Bool
deriving DecidableEq, Repr

/-- The observable pipeline steps, for traces. -/
inductive Step
  | authorize
  | checkUv
  | checkSetup
  | checkVenv
  | checkPyright
  | install
  | targetCheck
  | ensureConfig
  | execPyright
deriving DecidableEq, Repr

/-- Embedding of `pyright_service.check_uv_installed`: spawn
`uv --version` (timeout 10); completion yields the boolean
`returncode == 0`, `FileNotFoundError` yields the install-instruction
error, timeout and other exceptions yield their own errors. -/
def check_uv_installed (env : Env) : Except PyrightError Bool :=
  match env.uvVersion with
  | .completed rc _ _ => .ok (rc == 0)
  | .fileNotFound _ =>
      .error ⟨"uv is not installed. Please install uv (https://github.com/astral-sh/uv) to use this tool."⟩
  | .timedOut => .error ⟨"Timeout checking uv installation"⟩
  | .exn msg => .error ⟨"Error checking uv: " ++ msg⟩

/-- Embedding of `pyright_service.check_project_setup`:
`pyproject.toml` or `setup.py` must exist under the project root. -/
def check_project_setup (fs : FileSystem) (project_path : PyPath) : Except PyrightError Bool :=
  if fs.pathExists (project_path.segs ++ ["pyproject.toml"])
      || fs.pathExists (project_path.segs ++ ["setup.py"]) then
    .ok true
  else
    .error ⟨"Project needs to be set up. No pyproject.toml or setup.py found in "
      ++ project_path.toStr
      ++ ". Please run 'uv init' or create a proper Python project structure."⟩

/-- Embedding of `pyright_service.check_venv_exists`: a missing project
root is its own error; otherwise report whether `.venv` exists and is
a directory. -/
def check_venv_exists (fs : FileSystem) (project_path : PyPath) :
    Except PyrightError VenvStatus :=
  if !fs.pathExists project_path.segs then
    .error ⟨"Project path does not exist: " ++ project_path.toStr⟩
  else
    let venv_path := project_path.child (".venv")
    .ok ⟨fs.pathExists venv_path.segs && fs.isDir venv_path.segs, venv_path, false⟩

/-- Embedding of `pyright_service.install_pyright`: run
`uv add pyright` with the working directory `venv_path.parent`
(timeout 120); a non-zero exit surfaces the command's stderr, timeout
and exceptions their own errors. -/
def install_pyright (env : Env) (venv_path : PyPath) : Except PyrightError Bool :=
  match env.uvAddPyright with
  | .completed rc _ serr =>
      if rc != 0 then .error ⟨"Failed to install pyright: " ++ serr⟩ else .ok true
  | .timedOut => .error ⟨"Timeout installing pyright"⟩
  | .fileNotFound msg => .error ⟨"Error installing pyright: " ++ msg⟩
  | .exn msg => .error ⟨"Error installing pyright: " ++ msg⟩

/-- Embedding of `pyright_service.check_pyright_installed`: run
`uv run pyright --version` in the project (timeout 30); completion
yields the boolean `returncode == 0`; `FileNotFoundError` falls into
the generic `except Exception` branch. -/
def check_pyright_installed (env : Env) : Except PyrightError Bool :=
  match env.pyrightVersion with
  | .completed rc _ _ => .ok (rc == 0)
  | .timedOut => .error ⟨"Timeout checking pyright installation"⟩
  | .fileNotFound msg => .error ⟨"Error checking pyright: " ++ msg⟩
  | .exn msg => .error ⟨"Error checking pyright: " ++ msg⟩

/-- Embedding of `pyright_service.ensure_pyright_config`: if
`pyrightconfig.json` already exists, succeed without touching the
filesystem; otherwise write the one-setting configuration object
mapping the key `reportUnusedImport` to the value `warning`, with a
write failure surfaced as an error. Returns the updated filesystem. -/
def ensure_pyright_config (env : Env) (fs : FileSystem) (project_path : PyPath) :
    Except PyrightError Bool × FileSystem :=
  let config_path := project_path.segs ++ ["pyrightconfig.json"]
  if fs.pathExists config_path then
    (.ok true, fs)
  else if env.configWriteOk then
    (.ok true, fs.setFile config_path [("reportUnusedImport", "warning")])
  else
    (.error ⟨"Error creating pyrightconfig.json: " ++ env.configWriteErr⟩, fs)

/-- Embedding of `pyright_service.run_pyright_on_directory`: validate
that the target exists and is inside the project, ensure the
configuration file, then run `uv run pyright --warnings <target>`
(timeout 300) and wrap stdout ++ stderr and the exit code in a
`PyrightResult`; only timeout or a launch exception is a failure at
the execution step. -/
def run_pyright_on_directory (env : Env) (fs : FileSystem) (project_path target_dir : PyPath) :
    Except PyrightError PyrightResult × FileSystem × List Step :=
  if !fs.pathExists target_dir.segs then
    (.error ⟨"Target directory does not exist: " ++ target_dir.toStr⟩, fs, [.targetCheck])
  else if !target_dir.isRelativeTo project_path then
    (.error ⟨"Target directory " ++ target_dir.toStr ++ " is not within project "
        ++ project_path.toStr⟩, fs, [.targetCheck])
  else
    match ensure_pyright_config env fs project_path with
    | (.error e, fs2) => (.error e, fs2, [.targetCheck, .ensureConfig])
    | (.ok _, fs2) =>
      match env.runPyrightProc with
      | .completed rc sout serr =>
          (.ok ⟨sout ++ serr, rc, target_dir⟩, fs2, [.targetCheck, .ensureConfig, .execPyright])
      | .timedOut =>
          (.error ⟨"Timeout running pyright"⟩, fs2, [.targetCheck, .ensureConfig, .execPyright])
      | .fileNotFound msg =>
          (.error ⟨"Error running pyright: " ++ msg⟩, fs2,
            [.targetCheck, .ensureConfig, .execPyright])
      | .exn msg =>
          (.error ⟨"Error running pyright: " ++ msg⟩, fs2,
            [.targetCheck, .ensureConfig, .execPyright])

/-- Embedding of `pyright_service.setup_and_run_pyright`: the
short-circuiting pipeline. Only an `isinstance(..., PyrightError)`
result aborts the early checks; the boolean from `check_uv_installed`
and `check_project_setup` is otherwise ignored. Returns the outcome,
the final filesystem and the trace of invoked steps. -/
def setup_and_run_pyright (env : Env) (project_path target_dir : PyPath) :
    Except PyrightError PyrightResult × FileSystem × List Step :=
  match check_uv_installed env with
  | .error e => (.error e, env.fs, [.checkUv])
  | .ok _ =>
    match check_project_setup env.fs project_path with
    | .error e => (.error e, env.fs, [.checkUv, .checkSetup])
    | .ok _ =>
      match check_venv_exists env.fs project_path with
      | .error e => (.error e, env.fs, [.checkUv, .checkSetup, .checkVenv])
      | .ok venv_status =>
        if !venv_status.exists_ then
          (.error ⟨"Virtual environment not found at " ++ venv_status.path.toStr⟩,
            env.fs, [.checkUv, .checkSetup, .checkVenv])
        else
          match check_pyright_installed env with
          | .error e =>
              (.error e, env.fs, [.checkUv, .checkSetup, .checkVenv, .checkPyright])
          | .ok installed =>
            if !installed then
              match install_pyright env venv_status.path with
              | .error e =>
                  (.error e, env.fs,
                    [.checkUv, .checkSetup, .checkVenv, .checkPyright, .install])
              | .ok _ =>
                let r := run_pyright_on_directory env env.fs project_path target_dir
                (r.1, r.2.1,
                  [.checkUv, .checkSetup, .checkVenv, .checkPyright, .install] ++ r.2.2)
            else
              let r := run_pyright_on_directory env env.fs project_path target_dir
              (r.1, r.2.1,
                [.checkUv, .checkSetup, .checkVenv, .checkPyright] ++ r.2.2)

/-- The authorization guard of `main.run_pyright`, exactly as written:
`any(project_path == allowed or project_path.is_relative_to(allowed)
for allowed in allowed_paths)`. -/
def codeAuthorized (allowed_paths : List PyPath) (project_path : PyPath) : Bool :=
  allowed_paths.any (fun allowed =>
    project_path == allowed || project_path.isRelativeTo allowed)

/-- The fixed not-configured sentinel returned by `main.run_pyright`. -/
def notConfiguredMsg : String := "The pyright mcp is not configured correctly"

/-- The not-authorized error string of `main.run_pyright`. -/
def notAuthorizedMsg (project_path : PyPath) : String :=
  "Error: Project directory " ++ project_path.toStr ++ " is not in allowed directories"

/-- Embedding of `main.run_pyright`: resolve the project directory and
the join of project and target, return the sentinel if the allow-list
is uninitialised, the not-authorized error if the guard fails, and
otherwise render the pipeline outcome (an error-prefixed message on
failure, the raw combined output on success). Also returns the step
trace. -/
def run_pyright (allowed_paths : Option (List PyPath)) (cwd : List String)
    (project_dir target_dir : PyPath) (env : Env) : String × List Step :=
  let project_path := project_dir.resolve cwd
  let target_path := (pyJoin project_dir target_dir).resolve cwd
  match allowed_paths with
  | none => (notConfiguredMsg, [])
  | some allowed =>
    if !codeAuthorized allowed project_path then
      (notAuthorizedMsg project_path, [.authorize])
    else
      match setup_and_run_pyright env project_path target_path with
      | (.error e, _, tr) => ("Error: " ++ e.message, .authorize :: tr)
      | (.ok res, _, tr) => (res.output, .authorize :: tr)

/-- Spec-side authorization predicate, following the spec's words: the
requested path equals some allowed entry or is a strict descendant of
one under path-segment boundaries. -/
def specAuthorized (allowed_paths : List PyPath) (p : PyPath) : Prop :=
  ∃ a ∈ allowed_paths,
    p = a ∨ (a.absolute = p.absolute ∧ a.segs <+: p.segs ∧ p.segs ≠ a.segs)

/-- Fixture: the project root `/work/proj`. -/
def projPath : PyPath := ⟨true, ["work", "proj"]⟩

/-- Fixture: `/work/proj` with a manifest, an empty `.venv` directory,
and an unrelated directory `/outside`. -/
def fsEmptyVenv : FileSystem :=
  ⟨[(["work", "proj"], .dir false),
    (["work", "proj", "pyproject.toml"], .file []),
    (["work", "proj", ".venv"], .dir true),
    (["outside"], .dir false)]⟩

/-- Fixture: `/work/proj` with a manifest but no `.venv`. -/
def fsNoVenv : FileSystem :=
  ⟨[(["work", "proj"], .dir false),
    (["work", "proj", "pyproject.toml"], .file [])]⟩

/-- Fixture: every external command succeeds, but `uv --version` exits
with status 1. -/
def envUvExitOne : Env :=
  ⟨fsEmptyVenv, .completed 1 "" "", .completed 0 "" "", .completed 0 "" "",
    .completed 0 "out" "err", true, ""⟩

/-- Fixture: `uv` is missing, so spawning it raises
`FileNotFoundError`. -/
def envUvMissing : Env :=
  ⟨fsEmptyVenv, .fileNotFound ("No such file or directory: uv"),
    .completed 0 "" "", .completed 0 "" "", .completed 0 "out" "err", true, ""⟩

/-- Fixture: `uv --version` times out. -/
def envUvTimeout : Env :=
  ⟨fsEmptyVenv, .timedOut, .completed 0 "" "", .completed 0 "" "",
    .completed 0 "out" "err", true, ""⟩

/-- Fixture: all commands succeed but there is no `.venv` on disk. -/
def envNoVenv : Env :=
  ⟨fsNoVenv, .completed 0 "" "", .completed 0 "" "", .completed 0 "" "",
    .completed 0 "" "", true, ""⟩

/-- Fixture: all checks pass and pyright exits with status 2, writing
`AB` to stdout and `CD` to stderr. -/
def envExit2 : Env :=
  ⟨fsEmptyVenv, .completed 0 "" "", .completed 0 "" "", .completed 0 "" "",
    .completed 2 "AB" "CD", true, ""⟩

/-- Fixture: writing the configuration file fails. -/
def envCfgFail : Env :=
  ⟨fsEmptyVenv, .completed 0 "" "", .completed 0 "" "", .completed 0 "" "",
    .completed 0 "out" "err", false, "disk full"⟩

end PyrightMcp

namespace PyrightMcp

/-- Helper: elementwise equivalence between the code's authorization
test and the spec's equal-or-strict-descendant formulation. -/
theorem authorized_elem_iff (p a : PyPath) :
    (p == a || p.isRelativeTo a) = true ↔
      (p = a ∨ (a.absolute = p.absolute ∧ a.segs <+: p.segs ∧ p.segs ≠ a.segs)) := by
  simp only [Bool.or_eq_true, beq_iff_eq, PyPath.isRelativeTo, Bool.and_eq_true,
    List.isPrefixOf_iff_prefix]
  constructor
  · rintro (h | ⟨hab, hpre⟩)
    · exact Or.inl h
    · by_cases hseg : p.segs = a.segs
      · left
        cases p
        cases a
        simp_all
      · exact Or.inr ⟨hab, hpre, hseg⟩
  · rintro (h | ⟨hab, hpre, hne⟩)
    · exact Or.inl h
    · exact Or.inr ⟨hab, hpre⟩

/-- Helper: the not-configured sentinel differs from every
not-authorized error string (their first characters differ). -/
theorem notConfigured_ne (p : PyPath) : notConfiguredMsg ≠ notAuthorizedMsg p := by
  intro h
  have h2 := congrArg (fun t => t.data.head?) h
  simp only [notConfiguredMsg, notAuthorizedMsg, String.data_append] at h2
  simp only [List.cons_append, List.head?_cons, List.head?_nil] at h2
  exact absurd (Option.some.inj h2) (by decide)

/-- Helper: the orchestration steps of `run_pyright_on_directory` never
include the presence-check or install steps. -/
theorem run_trace_small (env : Env) (fs : FileSystem) (p t : PyPath) :
    Step.install ∉ (run_pyright_on_directory env fs p t).2.2 ∧
    Step.checkPyright ∉ (run_pyright_on_directory env fs p t).2.2 := by
  unfold run_pyright_on_directory
  split
  · simp
  · split
    · simp
    · split
      · simp
      · split <;> simp

/-- Helper: a freshly written file is found by `lookup`. -/
theorem lookup_setFile_self (fs : FileSystem) (q : List String)
    (kv : List (String × String)) :
    (fs.setFile q kv).lookup q = some (.file kv) := by
  simp [FileSystem.setFile, FileSystem.lookup, List.find?]

/-- Helper: when the configuration file already exists,
`ensure_pyright_config` succeeds and leaves the filesystem unchanged. -/
theorem ensure_config_exists_noop (env : Env) (fs : FileSystem) (p : PyPath)
    (h : fs.pathExists (p.segs ++ ["pyrightconfig.json"]) = true) :
    ensure_pyright_config env fs p = (.ok true, fs) := by
  simp [ensure_pyright_config, h]

/-- Claim C1: for every configured allow-list and requested project
path, `run_pyright` authorizes the request iff the resolved project
path equals some allowed root or is a strict descendant of one under
path-segment boundaries (so a sibling whose name merely extends an
allowed root, like `/home/foobar` under root `/home/foo`, is not
authorized), and an unauthorized request returns the error string
naming the rejected path. -/
theorem run_pyright_authorization (allowed : List PyPath) (cwd : List String)
    (project_dir target_dir : PyPath) (env : Env) :
    (codeAuthorized allowed (project_dir.resolve cwd) = true ↔
      specAuthorized allowed (project_dir.resolve cwd)) ∧
    (codeAuthorized allowed (project_dir.resolve cwd) = false →
      run_pyright (some allowed) cwd project_dir target_dir env =
        (notAuthorizedMsg (project_dir.resolve cwd), [.authorize])) := by
  constructor
  · simp only [codeAuthorized, List.any_eq_true, specAuthorized]
    exact exists_congr fun a => and_congr_right fun _ =>
      authorized_elem_iff (project_dir.resolve cwd) a
  · intro h
    simp [run_pyright, h]

/-- Witness for C1: allow-list `[/work/proj]`, request `/work/projX`
(the raw-string-prefix trap) is rejected with the error string naming
the path. -/
theorem run_pyright_authorization_witness :
    run_pyright (some [projPath]) [] ⟨true, ["work", "projX"]⟩ ⟨false, ["."]⟩ envExit2 =
      (notAuthorizedMsg (PyPath.resolve ⟨true, ["work", "projX"]⟩ []), [.authorize]) :=
  (run_pyright_authorization [projPath] [] ⟨true, ["work", "projX"]⟩ ⟨false, ["."]⟩
    envExit2).2 (by decide)

/-- Claim C2: with the allow-list uninitialised, `run_pyright` returns
the fixed not-configured sentinel with an empty step trace (so neither
the authorization decision nor any pipeline step runs), and that
sentinel differs from every not-authorized error string. -/
theorem run_pyright_not_configured (cwd : List String)
    (project_dir target_dir : PyPath) (env : Env) :
    run_pyright none cwd project_dir target_dir env = (notConfiguredMsg, []) ∧
    ∀ p : PyPath, (notConfiguredMsg == notAuthorizedMsg p) = false := by
  refine ⟨rfl, fun p => ?_⟩
  exact beq_eq_false_iff_ne.mpr (notConfigured_ne p)

/-- Claim C3: each pipeline step that returns a `PyrightError` stops
`setup_and_run_pyright` immediately: the very same error is returned
to the caller and the trace ends at the failing step; likewise inside
`run_pyright_on_directory` a configuration-ensure failure is returned
as-is and the execution step never runs. -/
theorem setup_short_circuits (env : Env) (p t : PyPath) :
    (∀ e, check_uv_installed env = .error e →
      setup_and_run_pyright env p t = (.error e, env.fs, [.checkUv])) ∧
    (∀ b e, check_uv_installed env = .ok b → check_project_setup env.fs p = .error e →
      setup_and_run_pyright env p t = (.error e, env.fs, [.checkUv, .checkSetup])) ∧
    (∀ b b2 e, check_uv_installed env = .ok b → check_project_setup env.fs p = .ok b2 →
      check_venv_exists env.fs p = .error e →
      setup_and_run_pyright env p t =
        (.error e, env.fs, [.checkUv, .checkSetup, .checkVenv])) ∧
    (∀ b b2 st e, check_uv_installed env = .ok b → check_project_setup env.fs p = .ok b2 →
      check_venv_exists env.fs p = .ok st → st.exists_ = true →
      check_pyright_installed env = .error e →
      setup_and_run_pyright env p t =
        (.error e, env.fs, [.checkUv, .checkSetup, .checkVenv, .checkPyright])) ∧
    (∀ b b2 st e, check_uv_installed env = .ok b → check_project_setup env.fs p = .ok b2 →
      check_venv_exists env.fs p = .ok st → st.exists_ = true →
      check_pyright_installed env = .ok false → install_pyright env st.path = .error e →
      setup_and_run_pyright env p t =
        (.error e, env.fs, [.checkUv, .checkSetup, .checkVenv, .checkPyright, .install])) ∧
    (∀ e, env.fs.pathExists t.segs = true → t.isRelativeTo p = true →
      (ensure_pyright_config env env.fs p).1 = .error e →
      (run_pyright_on_directory env env.fs p t).1 = .error e ∧
      Step.execPyright ∉ (run_pyright_on_directory env env.fs p t).2.2) := by
  refine ⟨?_, ?_, ?_, ?_, ?_, ?_⟩
  · intro e h1
    simp [setup_and_run_pyright, h1]
  · intro b e h1 h2
    simp [setup_and_run_pyright, h1, h2]
  · intro b b2 e h1 h2 h3
    simp [setup_and_run_pyright, h1, h2, h3]
  · intro b b2 st e h1 h2 h3 hex h4
    simp [setup_and_run_pyright, h1, h2, h3, hex, h4]
  · intro b b2 st e h1 h2 h3 hex h4 h5
    simp [setup_and_run_pyright, h1, h2, h3, hex, h4, h5]
  · intro e h1 h2 h3
    cases hc : ensure_pyright_config env env.fs p with
    | mk r fs2 =>
      rw [hc] at h3
      simp only at h3
      subst h3
      simp [run_pyright_on_directory, h1, h2, hc]

/-- Witness for C3: a missing `uv` stops the pipeline at the first
step with the install-instruction error, and a failed configuration
write is returned as-is by `run_pyright_on_directory`. -/
theorem setup_short_circuits_witness :
    setup_and_run_pyright envUvMissing projPath projPath =
      (.error ⟨"uv is not installed. Please install uv (https://github.com/astral-sh/uv) to use this tool."⟩,
        fsEmptyVenv, [.checkUv]) ∧
    (run_pyright_on_directory envCfgFail fsEmptyVenv projPath projPath).1 =
      .error ⟨"Error creating pyrightconfig.json: disk full"⟩ :=
  ⟨(setup_short_circuits envUvMissing projPath projPath).1 _ rfl,
   ((setup_short_circuits envCfgFail projPath projPath).2.2.2.2.2
      ⟨"Error creating pyrightconfig.json: disk full"⟩ rfl rfl rfl).1⟩

/-- Claim C4: in every run of `setup_and_run_pyright`, the install
step appears in the trace iff the presence check was reached and
returned the boolean `false`; it never runs when the presence check
returned `true` or an error. -/
theorem install_iff_not_installed (env : Env) (p t : PyPath) :
    Step.install ∈ (setup_and_run_pyright env p t).2.2 ↔
      (Step.checkPyright ∈ (setup_and_run_pyright env p t).2.2 ∧
        check_pyright_installed env = .ok false) := by
  cases h1 : check_uv_installed env with
  | error e => simp [setup_and_run_pyright, h1]
  | ok b =>
    cases h2 : check_project_setup env.fs p with
    | error e => simp [setup_and_run_pyright, h1, h2]
    | ok b2 =>
      cases h3 : check_venv_exists env.fs p with
      | error e => simp [setup_and_run_pyright, h1, h2, h3]
      | ok st =>
        cases hex : st.exists_ with
        | false => simp [setup_and_run_pyright, h1, h2, h3, hex]
        | true =>
          cases h4 : check_pyright_installed env with
          | error e => simp [setup_and_run_pyright, h1, h2, h3, hex, h4]
          | ok installed =>
            cases installed with
            | true =>
              simp [setup_and_run_pyright, h1, h2, h3, hex, h4,
                (run_trace_small env env.fs p t).1]
            | false =>
              cases h5 : install_pyright env st.path with
              | error e => simp [setup_and_run_pyright, h1, h2, h3, hex, h4, h5]
              | ok b3 => simp [setup_and_run_pyright, h1, h2, h3, hex, h4, h5]

/-- Claim C5: whatever exit code the type-checker process completes
with, `run_pyright_on_directory` returns a success carrying
stdout ++ stderr and that exit code; only a timeout or an exception
while launching yields a failure at the execution step. -/
theorem run_exec_outcomes (env : Env) (fs : FileSystem) (p t : PyPath) :
    (∀ b rc sout serr, fs.pathExists t.segs = true → t.isRelativeTo p = true →
      (ensure_pyright_config env fs p).1 = .ok b →
      env.runPyrightProc = .completed rc sout serr →
      (run_pyright_on_directory env fs p t).1 = .ok ⟨sout ++ serr, rc, t⟩) ∧
    (∀ b, fs.pathExists t.segs = true → t.isRelativeTo p = true →
      (ensure_pyright_config env fs p).1 = .ok b →
      env.runPyrightProc = .timedOut →
      (run_pyright_on_directory env fs p t).1 = .error ⟨"Timeout running pyright"⟩) ∧
    (∀ b msg, fs.pathExists t.segs = true → t.isRelativeTo p = true →
      (ensure_pyright_config env fs p).1 = .ok b →
      env.runPyrightProc = .fileNotFound msg →
      (run_pyright_on_directory env fs p t).1 =
        .error ⟨"Error running pyright: " ++ msg⟩) ∧
    (∀ b msg, fs.pathExists t.segs = true → t.isRelativeTo p = true →
      (ensure_pyright_config env fs p).1 = .ok b →
      env.runPyrightProc = .exn msg →
      (run_pyright_on_directory env fs p t).1 =
        .error ⟨"Error running pyright: " ++ msg⟩) := by
  refine ⟨?_, ?_, ?_, ?_⟩ <;>
    first
    | (intro b rc sout serr h1 h2 h3 h4
       cases hc : ensure_pyright_config env fs p with
       | mk r fs2 =>
         rw [hc] at h3
         simp only at h3
         subst h3
         simp [run_pyright_on_directory, h1, h2, hc, h4])
    | (intro b h1 h2 h3 h4
       cases hc : ensure_pyright_config env fs p with
       | mk r fs2 =>
         rw [hc] at h3
         simp only at h3
         subst h3
         simp [run_pyright_on_directory, h1, h2, hc, h4])
    | (intro b msg h1 h2 h3 h4
       cases hc : ensure_pyright_config env fs p with
       | mk r fs2 =>
         rw [hc] at h3
         simp only at h3
         subst h3
         simp [run_pyright_on_directory, h1, h2, hc, h4])

/-- Witness for C5: pyright exiting with status 2 still yields a
success whose output is stdout followed by stderr. -/
theorem run_exec_outcomes_witness :
    (run_pyright_on_directory envExit2 fsEmptyVenv projPath projPath).1 =
      .ok ⟨"AB" ++ "CD", 2, projPath⟩ ∧
    fsEmptyVenv.pathExists projPath.segs = true :=
  ⟨(run_exec_outcomes envExit2 fsEmptyVenv projPath projPath).1 true 2 "AB" "CD"
      rfl rfl rfl rfl, rfl⟩

end PyrightMcp

namespace PyrightMcp

/-- Counterexample for C6: `/work/proj/.venv` is an empty directory,
yet `check_venv_exists` reports the environment as existing, contrary
to the claim that an empty directory is treated as not existing. -/
theorem venv_empty_dir_counterexample :
    fsEmptyVenv.lookup ["work", "proj", ".venv"] = some (.dir true) ∧
    check_venv_exists fsEmptyVenv projPath =
      .ok ⟨true, ⟨true, ["work", "proj", ".venv"]⟩, false⟩ :=
  ⟨rfl, rfl⟩

/-- Claim C6 (amended): a missing project root is a distinct
project-path error; otherwise the environment is reported as not
existing exactly when the `.venv` entry is missing or is not a
directory (a directory, even an empty one, counts as existing); and an
environment reported as not existing stops the pipeline with a failure
naming the expected `.venv` location, before the presence check. -/
theorem venv_check_behavior (fs : FileSystem) (env : Env) (p t : PyPath) :
    (fs.pathExists p.segs = false →
      check_venv_exists fs p = .error ⟨"Project path does not exist: " ++ p.toStr⟩) ∧
    (fs.pathExists p.segs = true → fs.isDir (p.segs ++ [".venv"]) = false →
      check_venv_exists fs p = .ok ⟨false, p.child (".venv"), false⟩) ∧
    (fs.pathExists p.segs = true → fs.isDir (p.segs ++ [".venv"]) = true →
      check_venv_exists fs p = .ok ⟨true, p.child (".venv"), false⟩) ∧
    (∀ b b2 st, check_uv_installed env = .ok b → check_project_setup env.fs p = .ok b2 →
      check_venv_exists env.fs p = .ok st → st.exists_ = false →
      setup_and_run_pyright env p t =
        (.error ⟨"Virtual environment not found at " ++ st.path.toStr⟩, env.fs,
          [.checkUv, .checkSetup, .checkVenv])) := by
  refine ⟨?_, ?_, ?_, ?_⟩
  · intro h
    simp [check_venv_exists, h]
  · intro h1 h2
    simp [check_venv_exists, h1, h2, PyPath.child]
  · intro h1 h2
    have h3 : fs.pathExists (p.segs ++ [".venv"]) = true := by
      unfold FileSystem.isDir at h2
      unfold FileSystem.pathExists
      cases hl : fs.lookup (p.segs ++ [".venv"]) with
      | none => rw [hl] at h2; simp at h2
      | some e => simp
    simp [check_venv_exists, h1, h2, h3, PyPath.child]
  · intro b b2 st h1 h2 h3 hst
    simp [setup_and_run_pyright, h1, h2, h3, hst]

/-- Witness for C6 (amended): with no `.venv` on disk the status is
not-existing and the pipeline stops right after the venv check with
the failure naming `/work/proj/.venv`. -/
theorem venv_check_witness :
    check_venv_exists fsNoVenv projPath = .ok ⟨false, projPath.child (".venv"), false⟩ ∧
    setup_and_run_pyright envNoVenv projPath projPath =
      (.error ⟨"Virtual environment not found at "
        ++ (projPath.child (".venv")).toStr⟩, fsNoVenv,
        [.checkUv, .checkSetup, .checkVenv]) :=
  ⟨(venv_check_behavior fsNoVenv envNoVenv projPath projPath).2.1 rfl rfl,
   (venv_check_behavior fsNoVenv envNoVenv projPath projPath).2.2.2 true true
      ⟨false, projPath.child (".venv"), false⟩ rfl rfl rfl rfl⟩

/-- Counterexample for C7: `uv --version` completes with exit status 1
(the manager reports as unavailable), the check yields the boolean
`false`, and `setup_and_run_pyright` proceeds past the availability
check all the way to a successful run instead of returning a
failure. -/
theorem uv_exit_one_proceeds_counterexample :
    check_uv_installed envUvExitOne = .ok false ∧
    Step.checkSetup ∈ (setup_and_run_pyright envUvExitOne projPath projPath).2.2 ∧
    (setup_and_run_pyright envUvExitOne projPath projPath).1 =
      .ok ⟨"out" ++ "err", 0, projPath⟩ := by
  refine ⟨rfl, ?_, rfl⟩
  decide

/-- Claim C7 (amended): when the availability check returns a
`PyrightError` (manager missing, version query timed out, or another
exception), `setup_and_run_pyright` returns that failure and executes
no later step; but when the version query spawns and completes with a
non-zero exit status the check returns the boolean `false`, which is
not folded into a failure: the pipeline proceeds to the project-setup
step. -/
theorem uv_check_outcomes (env : Env) (p t : PyPath) :
    (∀ e, check_uv_installed env = .error e →
      setup_and_run_pyright env p t = (.error e, env.fs, [.checkUv])) ∧
    (∀ rc sout serr, env.uvVersion = .completed rc sout serr →
      check_uv_installed env = .ok (rc == 0) ∧
      Step.checkSetup ∈ (setup_and_run_pyright env p t).2.2) := by
  constructor
  · intro e h1
    simp [setup_and_run_pyright, h1]
  · intro rc sout serr h
    have h1 : check_uv_installed env = .ok (rc == 0) := by
      simp [check_uv_installed, h]
    refine ⟨h1, ?_⟩
    cases h2 : check_project_setup env.fs p with
    | error e => simp [setup_and_run_pyright, h1, h2]
    | ok b2 =>
      cases h3 : check_venv_exists env.fs p with
      | error e => simp [setup_and_run_pyright, h1, h2, h3]
      | ok st =>
        cases hex : st.exists_ with
        | false => simp [setup_and_run_pyright, h1, h2, h3, hex]
        | true =>
          cases h4 : check_pyright_installed env with
          | error e => simp [setup_and_run_pyright, h1, h2, h3, hex, h4]
          | ok installed =>
            cases installed with
            | true => simp [setup_and_run_pyright, h1, h2, h3, hex, h4]
            | false =>
              cases h5 : install_pyright env st.path with
              | error e => simp [setup_and_run_pyright, h1, h2, h3, hex, h4, h5]
              | ok b3 => simp [setup_and_run_pyright, h1, h2, h3, hex, h4, h5]

/-- Witness for C7 (amended): a timed-out `uv --version` stops the
pipeline at the first step, while an exit status 1 yields the boolean
`false` and the pipeline reaches the project-setup step. -/
theorem uv_check_outcomes_witness :
    setup_and_run_pyright envUvTimeout projPath projPath =
      (.error ⟨"Timeout checking uv installation"⟩, fsEmptyVenv, [.checkUv]) ∧
    (check_uv_installed envUvExitOne = .ok ((1 : Int) == 0) ∧
      Step.checkSetup ∈ (setup_and_run_pyright envUvExitOne projPath projPath).2.2) :=
  ⟨(uv_check_outcomes envUvTimeout projPath projPath).1 _ rfl,
   (uv_check_outcomes envUvExitOne projPath projPath).2 1 "" "" rfl⟩

/-- Claim C8: `run_pyright_on_directory` fails with a descriptive
error when the target does not exist or is not contained in the
project root, and in either case the filesystem is returned unchanged
and the trace contains only the target check, so no configuration file
is created and the type-checker is not invoked. -/
theorem target_validated_before_config (env : Env) (fs : FileSystem) (p t : PyPath) :
    (fs.pathExists t.segs = false →
      run_pyright_on_directory env fs p t =
        (.error ⟨"Target directory does not exist: " ++ t.toStr⟩, fs, [.targetCheck])) ∧
    (fs.pathExists t.segs = true → t.isRelativeTo p = false →
      run_pyright_on_directory env fs p t =
        (.error ⟨"Target directory " ++ t.toStr ++ " is not within project "
          ++ p.toStr⟩, fs, [.targetCheck])) := by
  constructor
  · intro h
    simp [run_pyright_on_directory, h]
  · intro h1 h2
    simp [run_pyright_on_directory, h1, h2]

/-- Witness for C8: a non-existent target and an existing-but-outside
target both fail with only the target check in the trace and the
filesystem unchanged. -/
theorem target_validated_witness :
    run_pyright_on_directory envExit2 fsEmptyVenv projPath ⟨true, ["nope"]⟩ =
      (.error ⟨"Target directory does not exist: " ++ (⟨true, ["nope"]⟩ : PyPath).toStr⟩,
        fsEmptyVenv, [.targetCheck]) ∧
    run_pyright_on_directory envExit2 fsEmptyVenv projPath ⟨true, ["outside"]⟩ =
      (.error ⟨"Target directory " ++ (⟨true, ["outside"]⟩ : PyPath).toStr
        ++ " is not within project " ++ projPath.toStr⟩, fsEmptyVenv, [.targetCheck]) :=
  ⟨(target_validated_before_config envExit2 fsEmptyVenv projPath ⟨true, ["nope"]⟩).1 rfl,
   (target_validated_before_config envExit2 fsEmptyVenv projPath ⟨true, ["outside"]⟩).2 rfl rfl⟩

/-- Claim C9: `ensure_pyright_config` never overwrites and is
idempotent: with the file present it succeeds leaving the filesystem
unchanged; with the file absent it creates it containing exactly the
single setting mapping `reportUnusedImport` to `warning`; and after
any successful call a second call succeeds without modifying the
filesystem. -/
theorem ensure_config_no_overwrite (env env2 : Env) (fs : FileSystem) (p : PyPath) :
    (fs.pathExists (p.segs ++ ["pyrightconfig.json"]) = true →
      ensure_pyright_config env fs p = (.ok true, fs)) ∧
    (fs.pathExists (p.segs ++ ["pyrightconfig.json"]) = false → env.configWriteOk = true →
      (ensure_pyright_config env fs p).1 = .ok true ∧
      (ensure_pyright_config env fs p).2.lookup (p.segs ++ ["pyrightconfig.json"]) =
        some (.file [("reportUnusedImport", "warning")])) ∧
    ((ensure_pyright_config env fs p).1 = .ok true →
      ensure_pyright_config env2 (ensure_pyright_config env fs p).2 p =
        (.ok true, (ensure_pyright_config env fs p).2)) := by
  refine ⟨ensure_config_exists_noop env fs p, ?_, ?_⟩
  · intro h1 h2
    constructor
    · simp [ensure_pyright_config, h1, h2]
    · simp only [ensure_pyright_config, h1, h2]
      simp [lookup_setFile_self]
  · intro h
    by_cases h1 : fs.pathExists (p.segs ++ ["pyrightconfig.json"]) = true
    · rw [ensure_config_exists_noop env fs p h1]
      exact ensure_config_exists_noop env2 fs p h1
    · have h1' : fs.pathExists (p.segs ++ ["pyrightconfig.json"]) = false := by
        simpa using h1
      cases hw : env.configWriteOk with
      | false => simp [ensure_pyright_config, h1', hw] at h
      | true =>
        have he : ensure_pyright_config env fs p =
            (.ok true, fs.setFile (p.segs ++ ["pyrightconfig.json"])
              [("reportUnusedImport", "warning")]) := by
          simp [ensure_pyright_config, h1', hw]
        have hx : (ensure_pyright_config env fs p).2.pathExists
            (p.segs ++ ["pyrightconfig.json"]) = true := by
          rw [he]
          simp [FileSystem.pathExists, lookup_setFile_self]
        exact ensure_config_exists_noop env2 _ p hx

/-- Witness for C9: with the configuration file absent, the first call
creates it with exactly the one setting and the second call is the
identity on the filesystem. -/
theorem ensure_config_witness :
    ((ensure_pyright_config envExit2 fsEmptyVenv projPath).1 = .ok true ∧
      (ensure_pyright_config envExit2 fsEmptyVenv projPath).2.lookup
        (projPath.segs ++ ["pyrightconfig.json"]) =
        some (.file [("reportUnusedImport", "warning")])) ∧
    ensure_pyright_config envExit2 (ensure_pyright_config envExit2 fsEmptyVenv projPath).2
        projPath =
      (.ok true, (ensure_pyright_config envExit2 fsEmptyVenv projPath).2) :=
  ⟨(ensure_config_no_overwrite envExit2 envExit2 fsEmptyVenv projPath).2.1 rfl rfl,
   (ensure_config_no_overwrite envExit2 envExit2 fsEmptyVenv projPath).2.2 rfl⟩

/-- Claim C10: joining the project directory with an absolute target
yields the target itself; the authorization decision inspects only the
project path, so an unauthorized project is rejected identically for
any target; and containment of the target in the project root is
enforced by the orchestrator's validation, which rejects existing
targets outside the project root. -/
theorem absolute_target_semantics (allowed : List PyPath) (cwd : List String)
    (project_dir target_dir td2 : PyPath) (env : Env) (fs : FileSystem) (p t : PyPath) :
    (target_dir.absolute = true → pyJoin project_dir target_dir = target_dir) ∧
    (codeAuthorized allowed (project_dir.resolve cwd) = false →
      run_pyright (some allowed) cwd project_dir target_dir env =
        (notAuthorizedMsg (project_dir.resolve cwd), [.authorize]) ∧
      run_pyright (some allowed) cwd project_dir td2 env =
        (notAuthorizedMsg (project_dir.resolve cwd), [.authorize])) ∧
    (fs.pathExists t.segs = true → t.isRelativeTo p = false →
      (run_pyright_on_directory env fs p t).1 =
        .error ⟨"Target directory " ++ t.toStr ++ " is not within project "
          ++ p.toStr⟩) := by
  refine ⟨?_, ?_, ?_⟩
  · intro h
    simp [pyJoin, h]
  · intro h
    exact ⟨by simp [run_pyright, h], by simp [run_pyright, h]⟩
  · intro h1 h2
    simp [run_pyright_on_directory, h1, h2]

/-- Witness for C10: an absolute target `/etc` escapes the join, an
unauthorized project is rejected with that absolute target, and an
existing path outside the project is rejected by the orchestrator. -/
theorem absolute_target_witness :
    pyJoin projPath ⟨true, ["etc"]⟩ = ⟨true, ["etc"]⟩ ∧
    run_pyright (some [projPath]) [] ⟨true, ["work", "projX"]⟩ ⟨true, ["etc"]⟩ envExit2 =
      (notAuthorizedMsg (PyPath.resolve ⟨true, ["work", "projX"]⟩ []), [.authorize]) ∧
    (run_pyright_on_directory envExit2 fsEmptyVenv projPath ⟨true, ["outside"]⟩).1 =
      .error ⟨"Target directory " ++ (⟨true, ["outside"]⟩ : PyPath).toStr
        ++ " is not within project " ++ projPath.toStr⟩ :=
  ⟨(absolute_target_semantics [projPath] [] projPath ⟨true, ["etc"]⟩ ⟨true, ["etc"]⟩
      envExit2 fsEmptyVenv projPath ⟨true, ["outside"]⟩).1 rfl,
   ((absolute_target_semantics [projPath] [] ⟨true, ["work", "projX"]⟩ ⟨true, ["etc"]⟩
      ⟨true, ["etc"]⟩ envExit2 fsEmptyVenv projPath ⟨true, ["outside"]⟩).2.1 (by decide)).1,
   (absolute_target_semantics [projPath] [] projPath ⟨true, ["etc"]⟩ ⟨true, ["etc"]⟩
      envExit2 fsEmptyVenv projPath ⟨true, ["outside"]⟩).2.2 rfl rfl⟩

end PyrightMcp
